import Mathlib

/-!
# Verification of `gopro2gpx.py`

A shallow embedding of the GoPro telemetry parser `gopro_binary_to_csv` and
the GPX serializer `make_gpx` from `src/gopro2gpx.py`, together with theorems
settling the spec claims C1..C10.

Modelling conventions:
* The input byte stream is a `List Nat` (each entry a byte 0..255); Python's
  `file.read(n)` returns up to `n` bytes, silently fewer at end of stream,
  which is `pyRead`.
* Python `datetime` objects are modelled as microseconds since the Unix
  epoch (`Int`); `timedelta(seconds=1)` is `1000000`.  `timedelta / int`
  rounds to the nearest microsecond, ties to even (CPython
  `_divide_and_round`), modelled by `pyDivRound`.
* Python floats produced by `float(raw) / scale` are modelled as exact
  rationals (`Rat`); the raw values and scales in all claims are small
  integers, where this is the intended reading.
* Fallible Python code (uncaught exceptions) is modelled with `Except PyError`.
* The `while` loop of `gopro_binary_to_csv` is driven by fuel; each iteration
  consumes at least the 8 header bytes, so fuel `stream.length + 1` never runs
  out (`parseLoop_fuel_stable` makes the fuel irrelevant beyond that bound).
-/

/-- Errors a run of the Python code can raise (or that end a loop).
`structError` is `struct.error`, raised by `struct.unpack` on a buffer of the
wrong size.  `valueError` covers `ValueError` (including `strptime` failures
and `UnicodeDecodeError`, a `ValueError` subclass).  `exceptionScal` and
`exceptionGps5` are the two explicit `raise Exception(...)` sites (lines 74
and 80 of the source). -/
inductive PyError where
  | structError
  | valueError
  | keyError
  | indexError
  | zeroDivisionError
  | exceptionScal
  | exceptionGps5
deriving Repr, DecidableEq

/-- One GPS fix as stored in `current_gps_data` (source lines 85-87):
raw big-endian values divided by the scale entries. -/
structure GpsSample where
  latitude : Rat
  longitude : Rat
  speedmps : Rat
deriving Repr, DecidableEq

/-- One session: the dict `{'timestamp': ..., 'gps_data': [...]}` created at
each GPSU record (source line 95).  Every dict the code ever stores in `data`
carries both keys, so the timestamp is a required field; the `KeyError`
fallback at source lines 121-129 is unreachable for states this parser
produces. -/
structure Session where
  timestamp : Int
  gps_data : List GpsSample
deriving Repr, DecidableEq

/-- One output row of `csv_data`: a `gps_data` dict with its interpolated
`'timestamp'` added (source line 136). -/
structure TrackPoint where
  latitude : Rat
  longitude : Rat
  speedmps : Rat
  timestamp : Int
deriving Repr, DecidableEq

/-- The mutable state of `gopro_binary_to_csv` (source lines 37-44).
`current_data = none` models the initial empty dict `{}` (falsy, and raising
`KeyError` on `current_data["gps_data"]`). -/
structure PState where
  scales : List Nat
  gps_fix : Nat
  gps_accuracy : Nat
  okay_to_record : Bool
  data : List Session
  current_data : Option Session
deriving Repr, DecidableEq

/-- Initial parser state (source lines 37-44). -/
def initState : PState :=
  { scales := [1, 1, 1, 1], gps_fix := 0, gps_accuracy := 9999,
    okay_to_record := false, data := [], current_data := none }

/-- `gopro_binary.read n`: returns the next `min n len` bytes and the rest of
the stream. -/
def pyRead (n : Nat) (s : List Nat) : List Nat × List Nat :=
  (s.take n, s.drop n)

/-- Big-endian unsigned integer of a byte list (`struct.unpack` with
`>H` / `>I`, and the raw value for `>i` before sign correction). -/
def beNat (bs : List Nat) : Nat :=
  bs.foldl (fun a b => a * 256 + b) 0

/-- Big-endian signed 32-bit integer (`struct.unpack '>i'` on 4 bytes). -/
def beInt32 (bs : List Nat) : Int :=
  let v := beNat bs
  if v < 2147483648 then (v : Int) else (v : Int) - 4294967296

/-- The gate of source line 109: `gps_fix in [2, 3] and gps_accuracy < 500`. -/
def okayOf (fix acc : Nat) : Bool :=
  (fix = 2 || fix = 3) && acc < 500

/-- Source line 109, executed after every value of a non-SCAL record:
`okay_to_record = gps_fix in [2, 3] and gps_accuracy < 500`. -/
def updateOkay (st : PState) : PState :=
  { st with okay_to_record := okayOf st.gps_fix st.gps_accuracy }

/-! ## Calendar arithmetic (Python `datetime`, proleptic Gregorian, UTC) -/

def isLeapYear (y : Int) : Bool :=
  y % 4 = 0 && (y % 100 ≠ 0 || y % 400 = 0)

def daysInMonth (y m : Int) : Int :=
  if m = 2 then (if isLeapYear y then 29 else 28)
  else if m = 4 ∨ m = 6 ∨ m = 9 ∨ m = 11 then 30
  else 31

/-- Days since 1970-01-01 of a proleptic-Gregorian civil date
(the standard `days_from_civil` algorithm, floor divisions). -/
def daysFromCivil (y m d : Int) : Int :=
  let y' := if m ≤ 2 then y - 1 else y
  let era := y'.fdiv 400
  let yoe := y' - era * 400
  let doy := (153 * (if 2 < m then m - 3 else m + 9) + 2).ediv 5 + d - 1
  let doe := yoe * 365 + yoe.ediv 4 - yoe.ediv 100 + doy
  era * 146097 + doe - 719468

/-- Inverse of `daysFromCivil` (the standard `civil_from_days` algorithm):
year, month, day of a count of days since 1970-01-01. -/
def civilFromDays (z0 : Int) : Int × Int × Int :=
  let z := z0 + 719468
  let era := z.fdiv 146097
  let doe := z - era * 146097
  let yoe := (doe - doe.ediv 1460 + doe.ediv 36524 - doe.ediv 146096).ediv 365
  let y := yoe + era * 400
  let doy := doe - (365 * yoe + yoe.ediv 4 - yoe.ediv 100)
  let mp := (5 * doy + 2).ediv 153
  let d := doy - (153 * mp + 2).ediv 5 + 1
  let m := if mp < 10 then mp + 3 else mp - 9
  (if m ≤ 2 then y + 1 else y, m, d)

def isDigitByte (b : Nat) : Bool := 48 ≤ b && b ≤ 57

def digitVal (b : Nat) : Nat := b - 48

/-- `bytes.strip()`: remove ASCII whitespace from both ends (source line 94). -/
def isSpaceByte (b : Nat) : Bool :=
  b = 9 || b = 10 || b = 11 || b = 12 || b = 13 || b = 32

def pyStrip (bs : List Nat) : List Nat :=
  ((bs.dropWhile isSpaceByte).reverse.dropWhile isSpaceByte).reverse

/-- Value of a list of ASCII digit bytes. -/
def digitsVal (bs : List Nat) : Nat :=
  bs.foldl (fun a b => a * 10 + digitVal b) 0

/-- `datetime.strptime(text, '%y%m%d%H%M%S.%f')` (source lines 93-94),
returning microseconds since the Unix epoch.  Modelled for the fixed-width
form the format describes: twelve ASCII digits, a dot, then 1-6 fractional
digits; `%y` maps 00-68 to 2000-2068 and 69-99 to 1969-1999; field ranges
are validated as `datetime` does (month 1-12, day within the month,
hour ≤ 23, minute ≤ 59, second ≤ 59).  Any other byte sequence (including
non-ASCII bytes, which could only fail to parse) yields `none`, which the
caller raises as a `ValueError`. -/
def strptimeGoPro (bs : List Nat) : Option Int :=
  match bs with
  | a1 :: a2 :: b1 :: b2 :: c1 :: c2 :: d1 :: d2 :: e1 :: e2 :: f1 :: f2 :: dot :: frac =>
    if ([a1, a2, b1, b2, c1, c2, d1, d2, e1, e2, f1, f2].all isDigitByte
        && dot = 46 && frac.length ≠ 0 && frac.length ≤ 6 && frac.all isDigitByte) then
      let yy := 10 * digitVal a1 + digitVal a2
      let year : Int := if yy ≤ 68 then 2000 + yy else 1900 + yy
      let month : Int := (10 * digitVal b1 + digitVal b2 : Nat)
      let day : Int := (10 * digitVal c1 + digitVal c2 : Nat)
      let hour : Int := (10 * digitVal d1 + digitVal d2 : Nat)
      let minute : Int := (10 * digitVal e1 + digitVal e2 : Nat)
      let sec : Int := (10 * digitVal f1 + digitVal f2 : Nat)
      let micro : Int := (digitsVal frac * 10 ^ (6 - frac.length) : Nat)
      if 1 ≤ month ∧ month ≤ 12 ∧ 1 ≤ day ∧ day ≤ daysInMonth year month
          ∧ hour ≤ 23 ∧ minute ≤ 59 ∧ sec ≤ 59 then
        some (((daysFromCivil year month day) * 86400
               + hour * 3600 + minute * 60 + sec) * 1000000 + micro)
      else none
    else none
  | _ => none

/-- Left-pad a decimal string with zeros to width `w`. -/
def zfill (w : Nat) (s : String) : String :=
  if s.length < w then String.mk (List.replicate (w - s.length) '0') ++ s else s

/-- Render a whole-second count since the epoch as `YYYY-MM-DDTHH:MM:SSZ`. -/
def strftimeOfSecs (secs : Int) : String :=
  let days := secs.fdiv 86400
  let sod := (secs - days * 86400).toNat
  let c := civilFromDays days
  zfill 4 (toString c.1.toNat) ++ "-" ++ zfill 2 (toString c.2.1.toNat) ++ "-"
    ++ zfill 2 (toString c.2.2.toNat) ++ "T" ++ zfill 2 (toString (sod / 3600))
    ++ ":" ++ zfill 2 (toString (sod % 3600 / 60)) ++ ":"
    ++ zfill 2 (toString (sod % 60)) ++ "Z"

/-- `timestamp.strftime("%Y-%m-%dT%H:%M:%SZ")` (source line 154) of a
microsecond timestamp: `%S` has second precision, so the microsecond part
below one second is dropped (floor). -/
def strftimeGpx (t : Int) : String :=
  strftimeOfSecs (t.fdiv 1000000)

/-- CPython `timedelta._divide_and_round` (`timedelta / int`, source line
134): quotient rounded to the nearest integer, ties to even.  Python's
`divmod` is floor division; all call sites here have a positive divisor, for
which `Int.ediv`/`Int.emod` coincide with floor division. -/
def pyDivRound (a b : Int) : Int :=
  if b < 2 * (a.emod b) ∨ (2 * (a.emod b) = b ∧ (a.ediv b).emod 2 = 1) then
    a.ediv b + 1
  else a.ediv b

/-! ## Tag labels (4-byte ASCII).  The source tests `"SCAL" in str(label)`
etc.; for the 4-byte labels the reader produces when a full header was read,
substring containment of a 4-letter uppercase tag in the `repr` of the bytes
is exactly byte-for-byte equality (escape sequences in `repr` are lowercase
`\xnn` and cannot contribute uppercase tag letters). -/

def lblGPS5 : List Nat := [71, 80, 83, 53]
def lblGPSU : List Nat := [71, 80, 83, 85]
def lblGPSF : List Nat := [71, 80, 83, 70]
def lblGPSP : List Nat := [71, 80, 83, 80]
def lblSCAL : List Nat := [83, 67, 65, 76]
def lblEMPT : List Nat := [69, 77, 80, 84]

/-! ## The tag interpreter (source lines 76-109) -/

/-- Source lines 85-87: build `current_gps_data` from a 20-byte GPS5 value
buffer.  The scale lookups and divisions happen in source order (latitude,
longitude, speedmps), so `IndexError` (scale table shorter than 4 entries)
or `ZeroDivisionError` (zero scale) is raised before the sample could ever
be appended. -/
def gps5SampleOf (st : PState) (buf : List Nat) : Except PyError GpsSample :=
  match st.scales.get? 0 with
  | none => .error .indexError
  | some s0 =>
    if s0 = 0 then .error .zeroDivisionError
    else
      match st.scales.get? 1 with
      | none => .error .indexError
      | some s1 =>
        if s1 = 0 then .error .zeroDivisionError
        else
          match st.scales.get? 3 with
          | none => .error .indexError
          | some s3 =>
            if s3 = 0 then .error .zeroDivisionError
            else
              .ok { latitude := (beInt32 (buf.take 4) : Rat) / (s0 : Rat),
                    longitude := (beInt32 ((buf.drop 4).take 4) : Rat) / (s1 : Rat),
                    speedmps := (beInt32 ((buf.drop 12).take 4) : Rat) / (s3 : Rat) }

/-- Source lines 84-88: state effect of one GPS5 value whose 20-byte buffer
was read.  If `okay_to_record`, build the sample and append it to
`current_data["gps_data"]` — a `KeyError` when no session dict exists yet. -/
def gps5Step (st : PState) (buf : List Nat) : Except PyError PState :=
  if st.okay_to_record then
    match gps5SampleOf st buf with
    | .error e => .error e
    | .ok sample =>
      match st.current_data with
      | none => .error .keyError
      | some sess =>
        let sess' : Session := { sess with gps_data := sess.gps_data ++ [sample] }
        .ok (updateOkay { st with current_data := some sess' })
  else .ok (updateOkay st)

/-- Source lines 90-92: `if current_data and current_data['gps_data']:
data.append(current_data)` — the current session dict is finalized into
`data` only when it is truthy (not the initial `{}`) and holds samples. -/
def gpsuFlush (st : PState) : PState :=
  match st.current_data with
  | some sess =>
    if sess.gps_data ≠ [] then { st with data := st.data ++ [sess] } else st
  | none => st

/-- Source lines 89-95: state effect of one GPSU value.  First the current
session dict is flushed (`gpsuFlush`), then the timestamp text is parsed (a
failure raises `ValueError`), and a fresh session dict becomes current. -/
def gpsuStep (st : PState) (buf : List Nat) : Except PyError PState :=
  match strptimeGoPro (pyStrip buf) with
  | none => .error .valueError
  | some ts =>
    .ok (updateOkay
      { gpsuFlush st with current_data := some ({ timestamp := ts, gps_data := [] }) })

/-- One iteration of `for value in range(num_values)` (source lines 76-109)
for a non-SCAL record: dispatch on the label, then re-evaluate
`okay_to_record` (line 109, folded into each step via `updateOkay`).
Returns the remaining stream and the new state, or the uncaught exception.
GPS5 reads `val_size` bytes (checked to be 20 first); GPSU reads
`data_length` bytes per value; GPSF and GPSP read `val_size` bytes and
unpack `>I` / `>H`, which demand a buffer of exactly 4 / 2 bytes. -/
def processOneValue (label : List Nat) (val_size data_length : Nat)
    (s : List Nat) (st : PState) : Except PyError (List Nat × PState) :=
  if label = lblGPS5 then
    -- lines 77-88
    if val_size ≠ 20 then .error .exceptionGps5
    else if (s.take 20).length ≠ 20 then .error .structError
    else (gps5Step st (s.take 20)).map fun st' => (s.drop 20, st')
  else if label = lblGPSU then
    -- lines 89-95
    (gpsuStep st (s.take data_length)).map fun st' => (s.drop data_length, st')
  else if label = lblGPSF then
    -- lines 96-99
    if (s.take val_size).length ≠ 4 then .error .structError
    else .ok (s.drop val_size, updateOkay { st with gps_fix := beNat (s.take val_size) })
  else if label = lblGPSP then
    -- lines 100-103
    if (s.take val_size).length ≠ 2 then .error .structError
    else .ok (s.drop val_size, updateOkay { st with gps_accuracy := beNat (s.take val_size) })
  else
    -- lines 104-107: skip `val_size` bytes
    .ok (s.drop val_size, updateOkay st)

/-- The value loop `for value in range(num_values)` (source line 76). -/
def processValues (label : List Nat) (val_size data_length : Nat) :
    Nat → List Nat → PState → Except PyError (List Nat × PState)
  | 0, s, st => .ok (s, st)
  | n + 1, s, st =>
    match processOneValue label val_size data_length s st with
    | .error e => .error e
    | .ok (s', st') => processValues label val_size data_length n s' st'

/-- The SCAL loop (source lines 67-74): read `n` big-endian unsigned values
of `val_size` (2 or 4) bytes each, any other size raising an exception.
The size check sits inside the loop, so `n = 0` succeeds with an empty
scale list regardless of `val_size`. -/
def readScales (val_size : Nat) :
    Nat → List Nat → List Nat → Except PyError (List Nat × List Nat)
  | 0, s, acc => .ok (s, acc)
  | n + 1, s, acc =>
    if val_size = 2 then
      if (s.take 2).length ≠ 2 then .error .structError
      else readScales val_size n (s.drop 2) (acc ++ [beNat (s.take 2)])
    else if val_size = 4 then
      if (s.take 4).length ≠ 4 then .error .structError
      else readScales val_size n (s.drop 4) (acc ++ [beNat (s.take 4)])
    else .error .exceptionScal

/-- Padding length for a `data_length`-byte payload (source lines 113-115):
`mod = data_length % 4; if mod: read(4 - mod)`. -/
def padLen (data_length : Nat) : Nat :=
  if data_length % 4 = 0 then 0 else 4 - data_length % 4

/-- Consume the alignment padding (source lines 113-115). -/
def padDrop (data_length : Nat) (s : List Nat) : List Nat :=
  s.drop (padLen data_length)

/-- Result of one `while` iteration: end the loop (`struct.error` on the
header read), abort with an uncaught exception, or continue with the rest of
the stream. -/
inductive StepRes where
  | halt (st : PState)
  | fail (e : PyError)
  | next (rest : List Nat) (st : PState)
deriving Repr, DecidableEq

/-- One iteration of the `while True` loop (source lines 45-115): read a
4-byte label and the `>cBBB` description (a short description read raises
`struct.error`, caught as end of stream); a zero type code skips the record
body entirely; an EMPT label consumes 4 extra bytes; SCAL replaces the scale
table; anything else runs the value loop; finally the alignment padding is
consumed. -/
def processRecord (s : List Nat) (st : PState) : StepRes :=
  let label := s.take 4
  let rest0 := s.drop 4
  match rest0.take 4 with
  | [t, vs, nh, nl] =>
    let s2 := rest0.drop 4
    if t = 0 then .next s2 st
    else if label = lblEMPT then .next (s2.drop 4) st
    else
      let num_values := nh * 256 + nl
      let data_length := vs * num_values
      if label = lblSCAL then
        match readScales vs num_values s2 [] with
        | .error e => .fail e
        | .ok (s3, sc) => .next (padDrop data_length s3) { st with scales := sc }
      else
        match processValues label vs data_length num_values s2 st with
        | .error e => .fail e
        | .ok (s3, st') => .next (padDrop data_length s3) st'
  | _ => .halt st

/-- The `while True` loop, driven by fuel.  Every continuing iteration
consumes at least the 8 header bytes, so fuel `s.length + 1` suffices
(`parseLoop_fuel_stable`); the fuel-exhausted case is unreachable at the
fuel the entry point supplies. -/
def parseLoop : Nat → List Nat → PState → Except PyError PState
  | 0, _, st => .ok st
  | fuel + 1, s, st =>
    match processRecord s st with
    | .halt st' => .ok st'
    | .fail e => .error e
    | .next rest st' => parseLoop fuel rest st'

/-! ## The timestamp interpolator (source lines 119-137) -/

/-- Inner loop for one session (source lines 134-137): `step` is the Python
`timedelta` division of the span by the sample count (ZeroDivisionError on
an empty sample list), and sample `j` receives `start_time + j * step`. -/
def emitRow (start_time end_time : Int) (samples : List GpsSample) :
    Except PyError (List TrackPoint) :=
  if samples.length = 0 then .error .zeroDivisionError
  else
    let step := pyDivRound (end_time - start_time) samples.length
    .ok (samples.enum.map fun p =>
      { latitude := p.2.latitude, longitude := p.2.longitude,
        speedmps := p.2.speedmps, timestamp := start_time + (p.1 : Int) * step })

/-- The interpolation loop (source lines 120-137): each session's end is the
next session's timestamp, and the last session's end is its own start plus
one second. -/
def interpolate : List Session → Except PyError (List TrackPoint)
  | [] => .ok []
  | [row] => emitRow row.timestamp (row.timestamp + 1000000) row.gps_data
  | row :: next :: rest =>
    match emitRow row.timestamp next.timestamp row.gps_data with
    | .error e => .error e
    | .ok pts =>
      match interpolate (next :: rest) with
      | .error e => .error e
      | .ok more => .ok (pts ++ more)

/-- `gopro_binary_to_csv` (source lines 24-138): parse the stream from the
initial state, then interpolate the finalized sessions.  The session held in
`current_data` when the loop ends is not finalized: only `data` feeds the
interpolator. -/
def gopro_binary_to_csv (s : List Nat) : Except PyError (List TrackPoint) :=
  match parseLoop (s.length + 1) s initState with
  | .error e => .error e
  | .ok st => interpolate st.data

/-! ## The GPX serializer `make_gpx` (source lines 140-164),
modelled as the list of strings passed to `print`, parametrized by the
rendering `fmt` of Python floats. -/

def gpxHeader : String :=
  "\n<?xml version=\x221.0\x22 encoding=\x22UTF-8\x22?>\n<gpx xmlns=\x22http://www.topografix.com/GPX/1/1\x22 xmlns:xsi=\x22http://www.w3.org/2001/XMLSchema-instance\x22 xsi:schemaLocation=\x22http://www.topografix.com/GPX/1/1 http://www.topografix.com/GPX/1/1/gpx.xsd\x22 version=\x221.1\x22 creator=\x22gopro2gpx.py\x22>\n <trk>\n  <trkseg>\n  "

def gpxFooter : String :=
  "\n  </trkseg>\n </trk>\n</gpx>\n"

/-- Source lines 150-157: the `lat` attribute is filled from
`p['longitude']` and the `lon` attribute from `p['latitude']` — the source
swaps them — and the time element is `strftime("%Y-%m-%dT%H:%M:%SZ")`. -/
def trkptLine (fmt : Rat → String) (p : TrackPoint) : String :=
  "   <trkpt lat=\x22" ++ fmt p.longitude ++ "\x22 lon=\x22" ++ fmt p.latitude
    ++ "\x22><time>" ++ strftimeGpx p.timestamp ++ "</time></trkpt>"

/-- `make_gpx` (source lines 140-164): header, one `trkpt` line per point in
order, footer. -/
def make_gpx (fmt : Rat → String) (points : List TrackPoint) : List String :=
  gpxHeader :: (points.map (trkptLine fmt) ++ [gpxFooter])

/-! ## Concrete inputs used by the claim theorems -/

/-- The synthetic byte stream of the round-trip scenario (claim C1), exactly
as the spec describes it: a SCAL record with scales `[1,1,1,1]` (type code
108, 4-byte values, count 4), a GPSU record with the 19-byte timestamp text
`210615120000.000000` plus 1 padding byte, a GPSF record with fix 3, a GPSP
record with accuracy 100 (plus 2 padding bytes), a GPS5 record with the two
samples `(100000,200000,0,500,0)` and `(100010,200010,0,520,0)`, and a
second GPSU record with `210615120002.000000`. -/
def c1Stream : List Nat :=
  [83, 67, 65, 76, 108, 4, 0, 4,
     0, 0, 0, 1, 0, 0, 0, 1, 0, 0, 0, 1, 0, 0, 0, 1] ++
  [71, 80, 83, 85, 85, 19, 0, 1,
     50, 49, 48, 54, 49, 53, 49, 50, 48, 48, 48, 48, 46,
     48, 48, 48, 48, 48, 48, 0] ++
  [71, 80, 83, 70, 76, 4, 0, 1, 0, 0, 0, 3] ++
  [71, 80, 83, 80, 76, 2, 0, 1, 0, 100, 0, 0] ++
  [71, 80, 83, 53, 108, 20, 0, 2,
     0, 1, 134, 160, 0, 3, 13, 64, 0, 0, 0, 0, 0, 0, 1, 244, 0, 0, 0, 0,
     0, 1, 134, 170, 0, 3, 13, 74, 0, 0, 0, 0, 0, 0, 2, 8, 0, 0, 0, 0] ++
  [71, 80, 83, 85, 85, 19, 0, 1,
     50, 49, 48, 54, 49, 53, 49, 50, 48, 48, 48, 50, 46,
     48, 48, 48, 48, 48, 48, 0]

/-- The two track points the code actually produces for `c1Stream`:
coordinates are the raw values divided by the scales `[1,1,1,1]`, and the
single finalized session (the second GPSU's session is discarded at end of
stream) spans `[12:00:00, 12:00:01)`, so the two samples sit 500000
microseconds apart. -/
def c1Actual : List TrackPoint :=
  [{ latitude := 100000, longitude := 200000, speedmps := 500,
     timestamp := 1623758400000000 },
   { latitude := 100010, longitude := 200010, speedmps := 520,
     timestamp := 1623758400500000 }]

/-- Claim C2's counterexample: a complete record header announcing a GPSF
record with a 4-byte value, followed by only 2 payload bytes (the stream is
truncated mid-payload). -/
def c2Stream : List Nat := [71, 80, 83, 70, 76, 4, 0, 1, 0, 0]

/-- Claim C3's counterexample: GPSF fix 3, GPSP accuracy 100 (the quality
gate now passes), then a GPS5 record with one sample, with no GPSU record
anywhere in the stream. -/
def c3Stream : List Nat :=
  [71, 80, 83, 70, 76, 4, 0, 1, 0, 0, 0, 3] ++
  [71, 80, 83, 80, 76, 2, 0, 1, 0, 100, 0, 0] ++
  [71, 80, 83, 53, 108, 20, 0, 1,
     0, 1, 134, 160, 0, 3, 13, 64, 0, 0, 0, 0, 0, 0, 1, 244, 0, 0, 0, 0]

/-- Claim C4's counterexample: a single well-formed GPSU record with
`val_size = 7` and `num_values = 2`.  `data_length = 14`, but the GPSU
branch reads `data_length` bytes per value, so the payload is the two
14-byte timestamp texts `210615120000.0` and `210615120002.0` (both parse),
while the padding is computed from `data_length` alone: 2 bytes.  The whole
stream is consumed: 8 + 28 + 2 = 38 bytes, and 38 is not a multiple of 4. -/
def c4Stream : List Nat :=
  [71, 80, 83, 85, 85, 7, 0, 2,
   50, 49, 48, 54, 49, 53, 49, 50, 48, 48, 48, 48, 46, 48,
   50, 49, 48, 54, 49, 53, 49, 50, 48, 48, 48, 50, 46, 48, 0, 0]

/-- Bytes consumed by one loop iteration that continues, `none` otherwise. -/
def consumedAfterRecord (s : List Nat) (st : PState) : Option Nat :=
  match processRecord s st with
  | .next rest _ => some (s.length - rest.length)
  | _ => none

/-- Claim C5's counterexample state: the most recent SCAL record carried a
single value, so `scales = [5]`; fix 3 and accuracy 100 (gate passes, and
`okay_to_record` was re-evaluated accordingly); a session is open. -/
def c5State : PState :=
  { scales := [5], gps_fix := 3, gps_accuracy := 100, okay_to_record := true,
    data := [], current_data := some { timestamp := 0, gps_data := [] } }

/-- A GPS5 value payload: `(100000, 200000, 0, 500, 0)` big-endian. -/
def c5Buf : List Nat :=
  [0, 1, 134, 160, 0, 3, 13, 64, 0, 0, 0, 0, 0, 0, 1, 244, 0, 0, 0, 0]

/-- A sample with zero coordinates (the values are irrelevant to claim C7). -/
def gZero : GpsSample := { latitude := 0, longitude := 0, speedmps := 0 }

/-- Claim C7's counterexample session list: the first session has 3 samples
and a span of 2 microseconds (its end is the second session's start). -/
def c7Data : List Session :=
  [{ timestamp := 0, gps_data := [gZero, gZero, gZero] },
   { timestamp := 2, gps_data := [gZero] }]

/-- Claim C10's demonstration stream: fix 3, accuracy 100, GPSU at
12:00:00, one passing GPS5 sample, GPSU at 12:00:02, then one more passing
GPS5 sample that ends up in the in-progress session when the stream ends. -/
def c10Stream : List Nat :=
  [71, 80, 83, 70, 76, 4, 0, 1, 0, 0, 0, 3] ++
  [71, 80, 83, 80, 76, 2, 0, 1, 0, 100, 0, 0] ++
  [71, 80, 83, 85, 85, 19, 0, 1,
     50, 49, 48, 54, 49, 53, 49, 50, 48, 48, 48, 48, 46,
     48, 48, 48, 48, 48, 48, 0] ++
  [71, 80, 83, 53, 108, 20, 0, 1,
     0, 1, 134, 160, 0, 3, 13, 64, 0, 0, 0, 0, 0, 0, 1, 244, 0, 0, 0, 0] ++
  [71, 80, 83, 85, 85, 19, 0, 1,
     50, 49, 48, 54, 49, 53, 49, 50, 48, 48, 48, 50, 46,
     48, 48, 48, 48, 48, 48, 0] ++
  [71, 80, 83, 53, 108, 20, 0, 1,
     0, 1, 134, 170, 0, 3, 13, 74, 0, 0, 0, 0, 0, 0, 2, 8, 0, 0, 0, 0]

/-- All sessions finalized so far have at least one sample: the invariant
claim C6 is about. -/
def DataInv (st : PState) : Prop :=
  ∀ sess ∈ st.data, sess.gps_data ≠ []

/-- `Except` success as a Bool. -/
def isOkE {α : Type} (e : Except PyError α) : Bool :=
  match e with
  | .ok _ => true
  | .error _ => false

/-- A GPSU record header announcing a 19-byte timestamp payload, with the
stream truncated after 14 payload bytes, `210615120000.0` — a prefix that
still fully matches `%y%m%d%H%M%S.%f` (the `%f` field accepts 1-6 digits),
so `strptime` succeeds on the short read. -/
def c2GpsuTrunc : List Nat :=
  [71, 80, 83, 85, 85, 19, 0, 1,
   50, 49, 48, 54, 49, 53, 49, 50, 48, 48, 48, 48, 46, 48]

/-- A record with an unrecognized label `XXXX` announcing 16 payload bytes,
with the stream truncated after 2: the skip branch's `read` calls return
short silently. -/
def c2SkipTrunc : List Nat := [88, 88, 88, 88, 1, 4, 0, 4, 7, 7]

/-- The record length implied by a record header under the source's framing
rules: 8 header bytes, plus nothing for a zero type code, plus 4 fixed bytes
for EMPT, plus `data_length = val_size * num_values` payload bytes and the
alignment padding of lines 113-115 for everything else. -/
def recordSpan (s : List Nat) : Nat :=
  match (s.drop 4).take 4 with
  | [t, vs, nh, nl] =>
    if t = 0 then 8
    else if s.take 4 = lblEMPT then 12
    else 8 + vs * (nh * 256 + nl) + padLen (vs * (nh * 256 + nl))
  | _ => 0

/-- A GPSU record with repeat count at least 2: the one header shape for
which the value loop reads `num_values * data_length` payload bytes instead
of `data_length`, overrunning the framing that the padding of lines 113-115
assumes. -/
def gpsuMulti (s : List Nat) : Bool :=
  s.take 4 = lblGPSU &&
    match (s.drop 4).take 4 with
    | [t, _, nh, nl] => t ≠ 0 && 2 ≤ nh * 256 + nl
    | _ => false

/-- Source lines 85-87 as a value: the sample built from a 20-byte GPS5
buffer and the three scale entries used. -/
def gps5SampleVal (buf : List Nat) (s0 s1 s3 : Nat) : GpsSample :=
  { latitude := (beInt32 (buf.take 4) : Rat) / (s0 : Rat),
    longitude := (beInt32 ((buf.drop 4).take 4) : Rat) / (s1 : Rat),
    speedmps := (beInt32 ((buf.drop 12).take 4) : Rat) / (s3 : Rat) }

/-- A concrete skipped-tag record (label `XXXX`, `val_size = 1`,
`num_values = 2`, two payload bytes, two padding bytes). -/
def c4WStream : List Nat := [88, 88, 88, 88, 1, 1, 0, 2, 7, 7, 0, 0]

/-- A state with a passing gate, default scales and no open session. -/
def c3WState : PState :=
  { scales := [1, 1, 1, 1], gps_fix := 3, gps_accuracy := 100,
    okay_to_record := true, data := [], current_data := none }

/-- A state with a passing gate, default scales and an open empty session. -/
def c5WState : PState :=
  { scales := [1, 1, 1, 1], gps_fix := 3, gps_accuracy := 100,
    okay_to_record := true, data := [], current_data := some ({ timestamp := 0, gps_data := [] }) }

/-- The points `emitRow 0 1000000 [gZero, gZero]` produces: the one-second
span is divided by 2, so the samples sit 500000 microseconds apart. -/
def c7wPts : List TrackPoint :=
  [{ latitude := 0, longitude := 0, speedmps := 0, timestamp := 0 },
   { latitude := 0, longitude := 0, speedmps := 0, timestamp := 500000 }]

/-- A fixed rendering function for floats, for instantiating `make_gpx`. -/
def constFmt : Rat → String := fun _ => "F"

/-- A concrete track point. -/
def c8wPoint : TrackPoint :=
  { latitude := 1, longitude := 2, speedmps := 3, timestamp := 1623758400000000 }

/-! ## Support lemmas: stream consumption and alignment -/

theorem padLen_add_mod (d : Nat) : (d + padLen d) % 4 = 0 := by
  unfold padLen
  split <;> omega

theorem take_four_length {l : List Nat} {a b c d : Nat}
    (h : l.take 4 = [a, b, c, d]) : 4 ≤ l.length := by
  have := congrArg List.length h
  simp [List.length_take] at this
  omega

/-- On success, one value of a non-SCAL record consumes exactly
`data_length` bytes for GPSU and `val_size` bytes for every other label. -/
theorem processOneValue_drop {label : List Nat} {vs d : Nat} {s s' : List Nat}
    {st st' : PState}
    (h : processOneValue label vs d s st = .ok (s', st')) :
    s' = s.drop (if label = lblGPSU then d else vs) := by
  unfold processOneValue at h
  split at h
  · rename_i h5
    have hne : ¬ label = lblGPSU := by simp [h5, lblGPS5, lblGPSU]
    simp only [hne, if_false]
    split at h
    · exact absurd h (by simp)
    · split at h
      · exact absurd h (by simp)
      · rename_i hvs _
        cases hg : gps5Step st (s.take 20) with
        | error e => rw [hg] at h; exact absurd h (by simp [Except.map])
        | ok st2 =>
          rw [hg] at h
          simp only [Except.map, Except.ok.injEq, Prod.mk.injEq] at h
          rw [← h.1]
          congr 1
          omega
  · split at h
    · rename_i hU
      simp only [hU, if_true]
      cases hg : gpsuStep st (s.take d) with
      | error e => rw [hg] at h; exact absurd h (by simp [Except.map])
      | ok st2 =>
        rw [hg] at h
        simp only [Except.map, Except.ok.injEq, Prod.mk.injEq] at h
        exact h.1.symm
    · rename_i hU
      simp only [hU, if_false]
      split at h
      · split at h
        · exact absurd h (by simp)
        · simp only [Except.ok.injEq, Prod.mk.injEq] at h
          exact h.1.symm
      · split at h
        · split at h
          · exact absurd h (by simp)
          · simp only [Except.ok.injEq, Prod.mk.injEq] at h
            exact h.1.symm
        · simp only [Except.ok.injEq, Prod.mk.injEq] at h
          exact h.1.symm

/-- On success, the value loop consumes exactly `num_values` times the
per-value amount. -/
theorem processValues_drop {label : List Nat} {vs d : Nat} :
    ∀ {n : Nat} {s s' : List Nat} {st st' : PState},
      processValues label vs d n s st = .ok (s', st') →
      s' = s.drop ((if label = lblGPSU then d else vs) * n) := by
  intro n
  induction n with
  | zero =>
    intro s s' st st' h
    simp only [processValues, Except.ok.injEq, Prod.mk.injEq] at h
    simp [← h.1]
  | succ k ih =>
    intro s s' st st' h
    unfold processValues at h
    cases h1 : processOneValue label vs d s st with
    | error e => rw [h1] at h; exact absurd h (by simp)
    | ok p =>
      rw [h1] at h
      obtain ⟨s1, st1⟩ := p
      have hd := processOneValue_drop h1
      have := ih h
      rw [this, hd, List.drop_drop]
      congr 1
      ring

/-- On success, the SCAL loop consumes exactly `val_size * n` bytes. -/
theorem readScales_drop {vs : Nat} :
    ∀ {n : Nat} {s s' acc acc' : List Nat},
      readScales vs n s acc = .ok (s', acc') → s' = s.drop (vs * n) := by
  intro n
  induction n with
  | zero =>
    intro s s' acc acc' h
    simp only [readScales, Except.ok.injEq, Prod.mk.injEq] at h
    simp [← h.1]
  | succ k ih =>
    intro s s' acc acc' h
    unfold readScales at h
    split at h
    · rename_i h2
      split at h
      · exact absurd h (by simp)
      · have := ih h
        rw [this, List.drop_drop, h2]
        congr 1
        ring
    · split at h
      · rename_i h4
        split at h
        · exact absurd h (by simp)
        · have := ih h
          rw [this, List.drop_drop, h4]
          congr 1
          ring
      · exact absurd h (by simp)

/-- A continuing iteration consumes at least the 8 header bytes. -/
theorem processRecord_next {s rest : List Nat} {st st' : PState}
    (h : processRecord s st = .next rest st') :
    rest.length + 8 ≤ s.length := by
  simp only [processRecord] at h
  split at h
  · rename_i t vs nh nl hm
    have h8 : 8 ≤ s.length := by
      have := take_four_length hm
      rw [List.length_drop] at this
      omega
    split at h
    · simp only [StepRes.next.injEq] at h
      rw [← h.1, List.drop_drop, List.length_drop]
      omega
    · split at h
      · simp only [StepRes.next.injEq] at h
        rw [← h.1, List.drop_drop, List.drop_drop, List.length_drop]
        omega
      · split at h
        · -- SCAL
          cases hr : readScales vs (nh * 256 + nl) ((s.drop 4).drop 4) [] with
          | error e => rw [hr] at h; exact absurd h (by simp)
          | ok p =>
            rw [hr] at h
            obtain ⟨s3, sc⟩ := p
            simp only [StepRes.next.injEq] at h
            have h3 := readScales_drop hr
            rw [← h.1]
            unfold padDrop
            rw [h3, List.drop_drop, List.drop_drop, List.drop_drop, List.length_drop]
            omega
        · cases hr : processValues (s.take 4) vs (vs * (nh * 256 + nl)) (nh * 256 + nl)
              ((s.drop 4).drop 4) st with
          | error e => rw [hr] at h; exact absurd h (by simp)
          | ok p =>
            rw [hr] at h
            obtain ⟨s3, st2⟩ := p
            simp only [StepRes.next.injEq] at h
            have h3 := processValues_drop hr
            rw [← h.1]
            unfold padDrop
            rw [h3, List.drop_drop, List.drop_drop, List.drop_drop, List.length_drop]
            omega
  · exact absurd h (by simp)

/-- Once the fuel exceeds the stream length, adding more fuel does not change
the result: the fuel-driven loop is the `while` loop. -/
theorem parseLoop_fuel_stable :
    ∀ (fuel : Nat) (s : List Nat) (st : PState), s.length < fuel →
      parseLoop (fuel + 1) s st = parseLoop fuel s st := by
  intro fuel
  induction fuel with
  | zero => intro s st h; omega
  | succ k ih =>
    intro s st h
    cases hp : processRecord s st with
    | halt st' => simp [parseLoop, hp]
    | fail e => simp [parseLoop, hp]
    | next rest st' =>
      have hb := processRecord_next hp
      simp only [parseLoop, hp]
      exact ih rest st' (by omega)

/-! ## Support lemmas: the non-empty-session invariant (claim C6) -/

theorem gps5Step_data {st st' : PState} {buf : List Nat}
    (h : gps5Step st buf = .ok st') : st'.data = st.data := by
  unfold gps5Step at h
  split at h
  · cases hs : gps5SampleOf st buf with
    | error e => rw [hs] at h; exact absurd h (by simp)
    | ok sample =>
      rw [hs] at h
      cases hc : st.current_data with
      | none => rw [hc] at h; exact absurd h (by simp)
      | some sess =>
        rw [hc] at h
        simp only [Except.ok.injEq] at h
        rw [← h]
        rfl
  · simp only [Except.ok.injEq] at h
    rw [← h]
    rfl

theorem gpsuFlush_inv {st : PState} (hi : DataInv st) : DataInv (gpsuFlush st) := by
  unfold gpsuFlush
  split
  · rename_i sess heq
    split
    · rename_i hne
      intro x hx
      have hx' : x ∈ st.data ++ [sess] := hx
      rw [List.mem_append] at hx'
      rcases hx' with hx' | hx'
      · exact hi x hx'
      · rw [List.mem_singleton] at hx'
        rw [hx']; exact hne
    · exact hi
  · exact hi

theorem gpsuStep_inv {st st' : PState} {buf : List Nat}
    (h : gpsuStep st buf = .ok st') (hi : DataInv st) : DataInv st' := by
  unfold gpsuStep at h
  cases hp : strptimeGoPro (pyStrip buf) with
  | none => rw [hp] at h; exact Except.noConfusion h
  | some ts =>
    rw [hp] at h
    simp only [Except.ok.injEq] at h
    rw [← h]
    intro x hx
    exact gpsuFlush_inv hi x hx

theorem processOneValue_inv {label : List Nat} {vs d : Nat} {s s' : List Nat}
    {st st' : PState}
    (h : processOneValue label vs d s st = .ok (s', st')) (hi : DataInv st) :
    DataInv st' := by
  unfold processOneValue at h
  split at h
  · split at h
    · exact absurd h (by simp)
    · split at h
      · exact absurd h (by simp)
      · cases hg : gps5Step st (s.take 20) with
        | error e => rw [hg] at h; exact absurd h (by simp [Except.map])
        | ok st2 =>
          rw [hg] at h
          simp only [Except.map, Except.ok.injEq, Prod.mk.injEq] at h
          rw [← h.2]
          intro x hx
          rw [gps5Step_data hg] at hx
          exact hi x hx
  · split at h
    · cases hg : gpsuStep st (s.take d) with
      | error e => rw [hg] at h; exact absurd h (by simp [Except.map])
      | ok st2 =>
        rw [hg] at h
        simp only [Except.map, Except.ok.injEq, Prod.mk.injEq] at h
        rw [← h.2]
        exact gpsuStep_inv hg hi
    · split at h
      · split at h
        · exact absurd h (by simp)
        · simp only [Except.ok.injEq, Prod.mk.injEq] at h
          rw [← h.2]
          exact hi
      · split at h
        · split at h
          · exact absurd h (by simp)
          · simp only [Except.ok.injEq, Prod.mk.injEq] at h
            rw [← h.2]
            exact hi
        · simp only [Except.ok.injEq, Prod.mk.injEq] at h
          rw [← h.2]
          exact hi

theorem processValues_inv {label : List Nat} {vs d : Nat} :
    ∀ {n : Nat} {s s' : List Nat} {st st' : PState},
      processValues label vs d n s st = .ok (s', st') → DataInv st →
      DataInv st' := by
  intro n
  induction n with
  | zero =>
    intro s s' st st' h hi
    simp only [processValues, Except.ok.injEq, Prod.mk.injEq] at h
    rw [← h.2]
    exact hi
  | succ k ih =>
    intro s s' st st' h hi
    unfold processValues at h
    cases h1 : processOneValue label vs d s st with
    | error e => rw [h1] at h; exact absurd h (by simp)
    | ok p =>
      rw [h1] at h
      obtain ⟨s1, st1⟩ := p
      exact ih h (processOneValue_inv h1 hi)

theorem processRecord_inv {s rest : List Nat} {st st' : PState}
    (h : processRecord s st = .next rest st') (hi : DataInv st) : DataInv st' := by
  simp only [processRecord] at h
  split at h
  · split at h
    · simp only [StepRes.next.injEq] at h
      rw [← h.2]
      exact hi
    · split at h
      · simp only [StepRes.next.injEq] at h
        rw [← h.2]
        exact hi
      · split at h
        · cases hr : readScales _ _ ((s.drop 4).drop 4) [] with
          | error e => rw [hr] at h; exact absurd h (by simp)
          | ok p =>
            rw [hr] at h
            obtain ⟨s3, sc⟩ := p
            simp only [StepRes.next.injEq] at h
            rw [← h.2]
            exact hi
        · cases hr : processValues (s.take 4) _ _ _ ((s.drop 4).drop 4) st with
          | error e => rw [hr] at h; exact absurd h (by simp)
          | ok p =>
            rw [hr] at h
            obtain ⟨s3, st2⟩ := p
            simp only [StepRes.next.injEq] at h
            rw [← h.2]
            exact processValues_inv hr hi
  · exact absurd h (by simp)

theorem parseLoop_inv :
    ∀ {fuel : Nat} {s : List Nat} {st st' : PState},
      parseLoop fuel s st = .ok st' → DataInv st → DataInv st' := by
  intro fuel
  induction fuel with
  | zero =>
    intro s st st' h hi
    simp only [parseLoop, Except.ok.injEq] at h
    rw [← h]
    exact hi
  | succ k ih =>
    intro s st st' h hi
    unfold parseLoop at h
    cases hp : processRecord s st with
    | halt st2 =>
      rw [hp] at h
      simp only [Except.ok.injEq] at h
      rw [← h]
      -- halting returns the state unchanged
      have : st2 = st := by
        simp only [processRecord] at hp
        split at hp
        · split at hp
          · exact absurd hp (by simp)
          · split at hp
            · exact absurd hp (by simp)
            · split at hp
              · cases hr : readScales _ _ ((s.drop 4).drop 4) [] with
                | error e => rw [hr] at hp; exact absurd hp (by simp)
                | ok p => rw [hr] at hp; exact absurd hp (by simp)
              · cases hr : processValues (s.take 4) _ _ _ ((s.drop 4).drop 4) st with
                | error e => rw [hr] at hp; exact absurd hp (by simp)
                | ok p => rw [hr] at hp; exact absurd hp (by simp)
        · simp only [StepRes.halt.injEq] at hp
          exact hp.symm
      rw [this]
      exact hi
    | fail e => rw [hp] at h; exact absurd h (by simp)
    | next rest st2 =>
      rw [hp] at h
      exact ih h (processRecord_inv hp hi)

/-- When every session holds at least one sample, the interpolator's
per-session division `(end_time - start_time) / len(row['gps_data'])` has a
nonzero divisor and interpolation succeeds. -/
theorem interpolate_isOk :
    ∀ {l : List Session}, (∀ sess ∈ l, sess.gps_data ≠ []) →
      isOkE (interpolate l) = true := by
  intro l
  induction l with
  | nil => intro _; rfl
  | cons row tail ih =>
    intro hne
    cases tail with
    | nil =>
      have h1 : row.gps_data ≠ [] := hne row (by simp)
      have h2 : row.gps_data.length ≠ 0 := by
        simpa [List.length_eq_zero] using h1
      simp [interpolate, emitRow, h2, isOkE]
    | cons next rest =>
      have h1 : row.gps_data ≠ [] := hne row (by simp)
      have h2 : row.gps_data.length ≠ 0 := by
        simpa [List.length_eq_zero] using h1
      have htail : ∀ sess ∈ next :: rest, sess.gps_data ≠ [] := by
        intro sess hs
        exact hne sess (List.mem_cons_of_mem row hs)
      have := ih htail
      simp only [interpolate, emitRow, h2, if_false]
      cases hint : interpolate (next :: rest) with
      | error e => rw [hint] at this; exact absurd this (by simp [isOkE])
      | ok more => simp [isOkE]

/-! ## Support lemmas: the rounding division (claim C7) -/

theorem pyDivRound_nonneg {a b : Int} (ha : 0 ≤ a) (hb : 0 < b) :
    0 ≤ pyDivRound a b := by
  unfold pyDivRound
  have hq : 0 ≤ a.ediv b := Int.ediv_nonneg ha (le_of_lt hb)
  split <;> omega

/-- The rounded quotient stays within half a divisor of the true quotient:
`2 * b * round(a / b) ≤ 2 * a + b` for a positive divisor. -/
theorem pyDivRound_two_mul_le {a b : Int} (hb : 0 < b) :
    2 * b * pyDivRound a b ≤ 2 * a + b := by
  unfold pyDivRound
  have heq : b * (a.ediv b) + a.emod b = a := Int.ediv_add_emod a b
  have hr0 : 0 ≤ a.emod b := Int.emod_nonneg a (ne_of_gt hb)
  have hrb : a.emod b < b := Int.emod_lt_of_pos a hb
  split
  · rename_i hcond
    rcases hcond with hgt | ⟨heq2, _⟩ <;> nlinarith
  · nlinarith

/-! ## Support lemmas: the gate is re-evaluated after every value (claim C5) -/

theorem gps5Step_okay {st st' : PState} {buf : List Nat}
    (h : gps5Step st buf = .ok st') :
    st'.okay_to_record = okayOf st'.gps_fix st'.gps_accuracy := by
  unfold gps5Step at h
  split at h
  · cases hs : gps5SampleOf st buf with
    | error e => rw [hs] at h; exact Except.noConfusion h
    | ok sample =>
      rw [hs] at h
      cases hc : st.current_data with
      | none => rw [hc] at h; exact Except.noConfusion h
      | some sess =>
        rw [hc] at h
        simp only [Except.ok.injEq] at h
        rw [← h]
        rfl
  · simp only [Except.ok.injEq] at h
    rw [← h]
    rfl

theorem gpsuStep_okay {st st' : PState} {buf : List Nat}
    (h : gpsuStep st buf = .ok st') :
    st'.okay_to_record = okayOf st'.gps_fix st'.gps_accuracy := by
  unfold gpsuStep at h
  cases hp : strptimeGoPro (pyStrip buf) with
  | none => rw [hp] at h; exact Except.noConfusion h
  | some ts =>
    rw [hp] at h
    simp only [Except.ok.injEq] at h
    rw [← h]
    rfl

/-- Every successful value step re-establishes
`okay_to_record = (gps_fix in [2,3] and gps_accuracy < 500)` — source
line 109 runs after every value of every non-SCAL record. -/
theorem processOneValue_okay {label : List Nat} {vs d : Nat} {s s' : List Nat}
    {st st' : PState}
    (h : processOneValue label vs d s st = .ok (s', st')) :
    st'.okay_to_record = okayOf st'.gps_fix st'.gps_accuracy := by
  unfold processOneValue at h
  split at h
  · split at h
    · exact Except.noConfusion h
    · split at h
      · exact Except.noConfusion h
      · cases hg : gps5Step st (s.take 20) with
        | error e => rw [hg] at h; exact absurd h (by simp [Except.map])
        | ok st2 =>
          rw [hg] at h
          simp only [Except.map, Except.ok.injEq, Prod.mk.injEq] at h
          rw [← h.2]
          exact gps5Step_okay hg
  · split at h
    · cases hg : gpsuStep st (s.take d) with
      | error e => rw [hg] at h; exact absurd h (by simp [Except.map])
      | ok st2 =>
        rw [hg] at h
        simp only [Except.map, Except.ok.injEq, Prod.mk.injEq] at h
        rw [← h.2]
        exact gpsuStep_okay hg
    · split at h
      · split at h
        · exact Except.noConfusion h
        · simp only [Except.ok.injEq, Prod.mk.injEq] at h
          rw [← h.2]
          rfl
      · split at h
        · split at h
          · exact Except.noConfusion h
          · simp only [Except.ok.injEq, Prod.mk.injEq] at h
            rw [← h.2]
            rfl
        · simp only [Except.ok.injEq, Prod.mk.injEq] at h
          rw [← h.2]
          rfl

/-- A stream too short for the 8 header bytes makes the `>cBBB` unpack raise
`struct.error`, which the loop catches as a normal end of stream. -/
theorem processRecord_short (s : List Nat) (st : PState) (h : s.length < 8) :
    processRecord s st = .halt st := by
  simp only [processRecord]
  split
  · rename_i t vs nh nl hm
    have h4 := take_four_length hm
    rw [List.length_drop] at h4
    exact absurd h4 (by omega)
  · rfl

/-! ## Claim theorems -/

set_option maxRecDepth 40000

attribute [local semireducible] Rat.mul Rat.inv in
/-- C1 (counterexample): on the round-trip stream exactly as the spec
describes it (scales `[1,1,1,1]`), the program does NOT produce the claimed
points `lat=1.0, lon=2.0` at `2021-06-15T12:00:00Z` and `lat=1.0001,
lon=2.0001` at `2021-06-15T12:00:01Z`.  The actual output (`c1Actual`) has
the raw coordinates divided by 1 (100000, 200000, ...), and — because the
second GPSU's session is discarded at end of stream — a single session
spanning one second, whose second sample lands at 12:00:00.5 and renders as
`2021-06-15T12:00:00Z`. -/
theorem c1_counterexample :
    gopro_binary_to_csv c1Stream = Except.ok c1Actual ∧
    ¬ (c1Actual.map (fun p => (p.latitude, p.longitude, strftimeGpx p.timestamp)) =
       [((1 : Rat), (2 : Rat), "2021-06-15T12:00:00Z"),
        ((10001 / 10000 : Rat), (20001 / 10000 : Rat), "2021-06-15T12:00:01Z")]) :=
  ⟨by rfl, by decide⟩

attribute [local semireducible] Rat.mul Rat.inv in
/-- C1 (amended): on that same stream the output holds exactly 2 track
points: `lat=100000.0, lon=200000.0` at 2021-06-15 12:00:00.000000 and
`lat=100010.0, lon=200010.0` at 2021-06-15 12:00:00.500000, both of which
serialize (at second precision) as `2021-06-15T12:00:00Z`. -/
theorem c1_amended_theorem :
    gopro_binary_to_csv c1Stream = Except.ok c1Actual ∧
    c1Actual.map (fun p => (p.latitude, p.longitude, strftimeGpx p.timestamp)) =
      [((100000 : Rat), (200000 : Rat), "2021-06-15T12:00:00Z"),
       ((100010 : Rat), (200010 : Rat), "2021-06-15T12:00:00Z")] ∧
    c1Actual.map TrackPoint.timestamp = [1623758400000000, 1623758400500000] :=
  ⟨by rfl, by decide, by decide⟩

attribute [local semireducible] Rat.mul Rat.inv in
/-- C2 (counterexample): a stream holding a complete GPSF record header but
a payload truncated to 2 of the announced 4 bytes does not end parsing as a
normal end-of-stream: the `struct.unpack('>I', ...)` at source line 99 sits
outside the `try` of lines 46-50, so the `struct.error` escapes as a fatal
error and no output is produced. -/
theorem c2_counterexample :
    gopro_binary_to_csv c2Stream = Except.error PyError.structError := by rfl

attribute [local semireducible] Rat.mul Rat.inv in
/-- C2 (amended): a short read of the 8-byte record header terminates
parsing as a normal end of stream, with everything accumulated in the state
still used (first conjunct, for every stream and state).  Short payload
reads are not always recovered, but neither are they always fatal: a
truncated payload that leaves a fixed-size `struct.unpack` (SCAL, GPS5,
GPSF, GPSP) with a buffer of the wrong size raises an uncaught
`struct.error` (the counterexample), while a skipped tag's truncated payload
is consumed silently, and a GPSU text cut to a still-parseable prefix even
parses — both of those streams end as a normal end-of-stream with the
accumulated data used (second and third conjuncts). -/
theorem c2_amended_theorem (s : List Nat) (st : PState) (fuel : Nat)
    (h : s.length < 8) :
    parseLoop (fuel + 1) s st = .ok st ∧
    gopro_binary_to_csv c2GpsuTrunc = Except.ok [] ∧
    gopro_binary_to_csv c2SkipTrunc = Except.ok [] := by
  have hh := processRecord_short s st h
  refine ⟨by simp [parseLoop, hh], by rfl, by rfl⟩

theorem c2_amended_witness : parseLoop 1 [0, 1, 2] initState = .ok initState :=
  (c2_amended_theorem [0, 1, 2] initState 0 (by decide)).1

/-- C3 (counterexample): a stream carrying GPSF fix 3 and GPSP accuracy 100
(so the quality gate passes) and then a GPS5 record before any GPSU record
crashes the parser with an uncaught `KeyError` — `current_data` is still the
initial empty dict, and `current_data["gps_data"]` at source line 88 has no
such key.  The samples are not dropped silently. -/
theorem c3_counterexample :
    gopro_binary_to_csv c3Stream = Except.error PyError.keyError := by rfl

/-- C3 (amended): whenever a GPS5 value is read with the gate passing, no
current session, and a well-formed scale table (at least 4 entries; entries
0, 1, 3 nonzero), the parser raises `KeyError` — a fatal error, not a
silent drop. -/
theorem c3_amended_theorem (s : List Nat) (st : PState) (d : Nat) (s0 s1 s3 : Nat)
    (hcur : st.current_data = none) (hok : st.okay_to_record = true)
    (h0 : st.scales.get? 0 = some s0) (h1 : st.scales.get? 1 = some s1)
    (h3 : st.scales.get? 3 = some s3)
    (hn0 : s0 ≠ 0) (hn1 : s1 ≠ 0) (hn3 : s3 ≠ 0)
    (hlen : 20 ≤ s.length) :
    processOneValue lblGPS5 20 d s st = .error .keyError := by
  have hbuf : (s.take 20).length = 20 := by
    rw [List.length_take]
    omega
  unfold processOneValue
  rw [if_pos rfl, if_neg (by simp), if_neg (by simp [hbuf])]
  unfold gps5Step
  rw [hok, if_pos rfl]
  unfold gps5SampleOf
  simp only [h0, h1, h3, if_neg hn0, if_neg hn1, if_neg hn3, hcur]
  rfl

theorem c3_amended_witness :
    processOneValue lblGPS5 20 20 c5Buf c3WState = .error .keyError :=
  c3_amended_theorem c5Buf c3WState 20 1 1 1 rfl rfl rfl rfl rfl
    (by decide) (by decide) (by decide) (by decide)

/-- C4 (counterexample): the single-record stream `c4Stream` — a GPSU record
with `val_size = 7`, `num_values = 2`, whose two 14-byte timestamp texts
both parse — is processed without error, consuming all 38 bytes of the
stream (8 header + 2 × 14 payload + 2 padding), and 38 is not a multiple
of 4: the GPSU branch reads `data_length` bytes per value, so a repeat
count of 2 breaks the alignment invariant. -/
theorem c4_counterexample :
    consumedAfterRecord c4Stream initState = some 38 ∧ 38 % 4 ≠ 0 :=
  ⟨by decide, by decide⟩

/-- C4 (amended): for every record processed successfully other than a GPSU
record with repeat count ≥ 2, the bytes consumed for the record (header,
payload and padding) are exactly `recordSpan` — a multiple of 4 — so the
reader's position after the padding stays a multiple of 4 relative to the
stream start.  The hypothesis `recordSpan s ≤ s.length` says the record is
wholly present (not truncated). -/
theorem c4_amended_theorem (s rest : List Nat) (st st' : PState)
    (h : processRecord s st = .next rest st')
    (hmulti : gpsuMulti s = false)
    (hspan : recordSpan s ≤ s.length) :
    s.length = rest.length + recordSpan s ∧ recordSpan s % 4 = 0 := by
  simp only [processRecord] at h
  split at h
  · rename_i t vs nh nl hm
    have h8 : 8 ≤ s.length := by
      have := take_four_length hm
      rw [List.length_drop] at this
      omega
    have hrs : recordSpan s =
        (if t = 0 then 8 else if s.take 4 = lblEMPT then 12
         else 8 + vs * (nh * 256 + nl) + padLen (vs * (nh * 256 + nl))) := by
      simp only [recordSpan, hm]
    split at h
    · rename_i ht
      simp only [StepRes.next.injEq] at h
      rw [if_pos ht] at hrs
      rw [hrs, ← h.1, List.drop_drop, List.length_drop]
      omega
    · rename_i ht
      split at h
      · rename_i hE
        simp only [StepRes.next.injEq] at h
        rw [if_neg ht, if_pos hE] at hrs
        rw [hrs] at hspan ⊢
        rw [← h.1, List.drop_drop, List.drop_drop, List.length_drop]
        omega
      · rename_i hE
        rw [if_neg ht, if_neg hE] at hrs
        split at h
        · rename_i hS
          cases hr : readScales vs (nh * 256 + nl) ((s.drop 4).drop 4) [] with
          | error e => rw [hr] at h; exact StepRes.noConfusion h
          | ok p =>
            rw [hr] at h
            obtain ⟨s3, sc⟩ := p
            simp only [StepRes.next.injEq] at h
            have h3 := readScales_drop hr
            rw [hrs] at hspan ⊢
            rw [← h.1]
            unfold padDrop
            rw [h3, List.drop_drop, List.drop_drop, List.drop_drop, List.length_drop]
            have hpm := padLen_add_mod (vs * (nh * 256 + nl))
            omega
        · rename_i hS
          cases hr : processValues (s.take 4) vs (vs * (nh * 256 + nl)) (nh * 256 + nl)
              ((s.drop 4).drop 4) st with
          | error e => rw [hr] at h; exact StepRes.noConfusion h
          | ok p =>
            rw [hr] at h
            obtain ⟨s3, st2⟩ := p
            simp only [StepRes.next.injEq] at h
            have h3 := processValues_drop hr
            have hcn : (if s.take 4 = lblGPSU then vs * (nh * 256 + nl) else vs)
                * (nh * 256 + nl) = vs * (nh * 256 + nl) := by
              split
              · rename_i hU
                have hmu : (decide (¬t = 0) && decide (2 ≤ nh * 256 + nl)) = false := by
                  have hgm : gpsuMulti s =
                      (decide (s.take 4 = lblGPSU)
                        && (decide (¬t = 0) && decide (2 ≤ nh * 256 + nl))) := by
                    simp only [gpsuMulti, hm]
                  rw [hgm, hU] at hmulti
                  simpa using hmulti
                have hnv : nh * 256 + nl ≤ 1 := by
                  rcases Bool.and_eq_false_iff.mp hmu with hh | hh
                  · exact absurd ht (by simpa using hh)
                  · have := of_decide_eq_false hh
                    omega
                have hcases : nh * 256 + nl = 0 ∨ nh * 256 + nl = 1 := by omega
                rcases hcases with h0 | h1
                · rw [h0]; ring
                · rw [h1]; ring
              · rfl
            rw [hcn] at h3
            rw [hrs] at hspan ⊢
            rw [← h.1]
            unfold padDrop
            rw [h3, List.drop_drop, List.drop_drop, List.drop_drop, List.length_drop]
            have hpm := padLen_add_mod (vs * (nh * 256 + nl))
            omega
  · exact StepRes.noConfusion h

theorem c4_amended_witness :
    c4WStream.length = ([] : List Nat).length + recordSpan c4WStream ∧
    recordSpan c4WStream % 4 = 0 :=
  c4_amended_theorem c4WStream [] initState initState (by decide) (by decide)
    (by decide)

attribute [local semireducible] Rat.mul Rat.inv in
/-- C5 (counterexample): with scale table `[5]` (left by a SCAL record with
a single value), fix 3 and accuracy 100, the gate passes at the moment a
GPS5 value is read, yet no sample is appended: the parse aborts with
`IndexError` at `scales[1]` (source line 86).  "Appended iff the gate
passes" therefore fails for such streams. -/
theorem c5_counterexample :
    processOneValue lblGPS5 20 20 c5Buf c5State = Except.error PyError.indexError ∧
    okayOf c5State.gps_fix c5State.gps_accuracy = true :=
  ⟨by rfl, by rfl⟩

/-- C5 (amended): while a session exists and the scale table is well-formed
(entries 0, 1, 3 present and nonzero), a GPS5 value appends a sample exactly
when `gps_fix in [2,3] and gps_accuracy < 500` holds for the most recently
seen values — `okay_to_record` always equals that gate (it starts out equal
and every value step re-establishes it, source line 109), so the gate is in
effect re-evaluated at the moment each individual value is read, not at
record start. -/
theorem c5_amended_theorem (s : List Nat) (st : PState) (sess : Session) (d : Nat)
    (s0 s1 s3 : Nat)
    (hcur : st.current_data = some sess)
    (hok : st.okay_to_record = okayOf st.gps_fix st.gps_accuracy)
    (h0 : st.scales.get? 0 = some s0) (h1 : st.scales.get? 1 = some s1)
    (h3 : st.scales.get? 3 = some s3)
    (hn0 : s0 ≠ 0) (hn1 : s1 ≠ 0) (hn3 : s3 ≠ 0)
    (hlen : 20 ≤ s.length) :
    processOneValue lblGPS5 20 d s st =
      .ok (s.drop 20, updateOkay { st with current_data := some ⟨sess.timestamp,
        sess.gps_data ++ (if okayOf st.gps_fix st.gps_accuracy then
          [gps5SampleVal (s.take 20) s0 s1 s3] else [])⟩ }) ∧
    initState.okay_to_record = okayOf initState.gps_fix initState.gps_accuracy ∧
    (∀ (label : List Nat) (vs dl : Nat) (s2 s2' : List Nat) (st2 st2' : PState),
      processOneValue label vs dl s2 st2 = .ok (s2', st2') →
      st2'.okay_to_record = okayOf st2'.gps_fix st2'.gps_accuracy) := by
  refine ⟨?_, rfl, fun label vs dl s2 s2' st2 st2' hh => processOneValue_okay hh⟩
  have hbuf : (s.take 20).length = 20 := by
    rw [List.length_take]
    omega
  unfold processOneValue
  rw [if_pos rfl, if_neg (by simp), if_neg (by simp [hbuf])]
  unfold gps5Step
  rw [hok]
  by_cases hg : okayOf st.gps_fix st.gps_accuracy = true
  · rw [hg, if_pos rfl]
    unfold gps5SampleOf
    simp only [h0, h1, h3, if_neg hn0, if_neg hn1, if_neg hn3, hcur]
    simp only [Except.map, hg, if_true]
    rfl
  · rw [Bool.not_eq_true] at hg
    rw [hg]
    simp only [Bool.false_eq_true, if_false, Except.map, Except.ok.injEq, Prod.mk.injEq]
    refine ⟨trivial, ?_⟩
    obtain ⟨f1, f2, f3, f4, f5, f6⟩ := st
    obtain ⟨t1, t2⟩ := sess
    simp only at hcur
    simp [updateOkay, hcur]

attribute [local semireducible] Rat.mul Rat.inv in
theorem c5_amended_witness :
    processOneValue lblGPS5 20 20 c5Buf c5WState =
      .ok (c5Buf.drop 20, updateOkay { c5WState with current_data := some ⟨(0 : Int),
        [] ++ (if okayOf c5WState.gps_fix c5WState.gps_accuracy then
          [gps5SampleVal (c5Buf.take 20) 1 1 1] else [])⟩ }) :=
  (c5_amended_theorem c5Buf c5WState ⟨0, []⟩ 20 1 1 1 rfl rfl rfl rfl rfl
    (by decide) (by decide) (by decide) (by decide)).1

/-- C6: sessions are finalized only at source lines 91-92, guarded by a
non-empty sample list, and nowhere else, so every session in the final list
has at least one sample and the interpolator's division by
`len(row['gps_data'])` (source line 134) never divides by zero: for any
stream parsed from a state whose finalized sessions are all non-empty (the
initial state has none), the final session list is all non-empty and
interpolation succeeds. -/
theorem c6_theorem (fuel : Nat) (s : List Nat) (st st' : PState)
    (hinv : DataInv st) (h : parseLoop fuel s st = .ok st') :
    DataInv st' ∧ isOkE (interpolate st'.data) = true := by
  have hi := parseLoop_inv h hinv
  exact ⟨hi, interpolate_isOk hi⟩

theorem c6_witness : isOkE (interpolate initState.data) = true :=
  (c6_theorem 1 [] initState initState
    (fun sess hs => absurd hs (List.not_mem_nil sess)) rfl).2

/-- C7 (counterexample): for the session list `c7Data` — first session with
3 samples spanning `[0, 2)` microseconds (its end is the second session's
start, 2) — the interpolator assigns timestamps 0, 1, 2: the Python
`timedelta / int` division rounds 2/3 up to one whole microsecond, so the
last sample's timestamp equals `end`, not strictly less than it, and also
differs from the exact `start + j*(end-start)/k` (which would be 4/3 for
`j = 2`). -/
theorem c7_counterexample :
    (interpolate c7Data).map (List.map TrackPoint.timestamp) =
      Except.ok [0, 1, 2, 2] ∧ ¬ ((2 : Int) < 2) :=
  ⟨by rfl, by decide⟩

/-- C7 (amended): sample `j` of a session with `k` samples over the span
`[start, end)` receives `start + j * step`, where `step` is `(end-start)/k`
rounded to the code's microsecond resolution (round half to even); whenever
`k*(k-1) < 2*(end-start)` — in particular for any span of at least one
second and `k ≤ 1414` — every sample's timestamp, the last one included, is
strictly less than `end`.  The precondition `end > start` alone is not
enough (see the counterexample). -/
theorem c7_amended_theorem (start_time end_time : Int) (samples : List GpsSample)
    (j : Nat) (pts : List TrackPoint)
    (h0 : samples.length ≠ 0)
    (hspan : (samples.length : Int) * ((samples.length : Int) - 1) <
      2 * (end_time - start_time))
    (hemit : emitRow start_time end_time samples = .ok pts)
    (hj : j < pts.length) :
    (pts.get ⟨j, hj⟩).timestamp =
      start_time + (j : Int) * pyDivRound (end_time - start_time) (samples.length : Int) ∧
    (pts.get ⟨j, hj⟩).timestamp < end_time := by
  unfold emitRow at hemit
  rw [if_neg h0] at hemit
  simp only [Except.ok.injEq] at hemit
  subst hemit
  have hjs : j < samples.length := by
    have := hj
    simpa [List.enum_length] using this
  have hts : ((samples.enum.map fun p =>
      ({ latitude := p.2.latitude, longitude := p.2.longitude,
         speedmps := p.2.speedmps,
         timestamp := start_time + (p.1 : Int)
           * pyDivRound (end_time - start_time) samples.length } : TrackPoint)).get
        ⟨j, hj⟩).timestamp =
      start_time + (j : Int) * pyDivRound (end_time - start_time) (samples.length : Int) := by
    simp [List.get_eq_getElem, List.getElem_map, List.getElem_enum]
  refine ⟨hts, ?_⟩
  rw [hts]
  have hk1 : (1 : Int) ≤ (samples.length : Int) := by
    exact_mod_cast Nat.pos_of_ne_zero h0
  have hkpos : (0 : Int) < (samples.length : Int) := by omega
  have hspanpos : (0 : Int) < end_time - start_time := by nlinarith
  have hstep0 : 0 ≤ pyDivRound (end_time - start_time) (samples.length : Int) :=
    pyDivRound_nonneg (le_of_lt hspanpos) hkpos
  have h2 := @pyDivRound_two_mul_le (end_time - start_time) (samples.length : Int) hkpos
  have hjk : (j : Int) ≤ (samples.length : Int) - 1 := by
    have hcast : (j : Int) < (samples.length : Int) := by exact_mod_cast hjs
    omega
  have hk10 : (0 : Int) ≤ (samples.length : Int) - 1 := by omega
  have hkey : ((samples.length : Int) - 1)
      * pyDivRound (end_time - start_time) (samples.length : Int)
      < end_time - start_time := by
    have hA := mul_le_mul_of_nonneg_left h2 hk10
    nlinarith
  have hle : (j : Int) * pyDivRound (end_time - start_time) (samples.length : Int)
      ≤ ((samples.length : Int) - 1)
        * pyDivRound (end_time - start_time) (samples.length : Int) :=
    mul_le_mul_of_nonneg_right hjk hstep0
  linarith

theorem c7_amended_witness :
    (c7wPts.get ⟨1, by decide⟩).timestamp =
      0 + (1 : Int) * pyDivRound (1000000 - 0) 2 ∧
    (c7wPts.get ⟨1, by decide⟩).timestamp < 1000000 :=
  c7_amended_theorem 0 1000000 [gZero, gZero] 1 c7wPts (by decide) (by decide)
    (by rfl) (by decide)

/-- C8: `make_gpx` emits exactly one `trkpt` line per point, in order (line
`i + 1` of the output, after the header), the `lat` attribute receives the
point's longitude and the `lon` attribute the point's latitude (the source's
swap at lines 152-153 is preserved), and the nested time element is the
timestamp rendered as `YYYY-MM-DDTHH:MM:SSZ` — second precision, dropping
the microsecond remainder entirely (`strftimeGpx` only reads the timestamp
floored to whole seconds). -/
theorem c8_theorem (fmt : Rat → String) (points : List TrackPoint) (i : Nat)
    (p : TrackPoint) (t : Int) (hp : points.get? i = some p) :
    (make_gpx fmt points).length = points.length + 2 ∧
    (make_gpx fmt points).get? (i + 1) =
      some ("   <trkpt lat=\x22" ++ fmt p.longitude ++ "\x22 lon=\x22" ++ fmt p.latitude
        ++ "\x22><time>" ++ strftimeGpx p.timestamp ++ "</time></trkpt>") ∧
    strftimeGpx t = strftimeGpx (1000000 * t.fdiv 1000000) := by
  have hip : i < points.length := by
    by_contra hc
    rw [List.get?_eq_none.mpr (by omega)] at hp
    exact Option.noConfusion hp
  refine ⟨?_, ?_, ?_⟩
  · simp [make_gpx]
  · have h1 : (make_gpx fmt points).get? (i + 1) =
        (points.map (trkptLine fmt) ++ [gpxFooter]).get? i := by
      simp [make_gpx]
    rw [h1, List.get?_append (by simpa using hip), List.get?_map, hp]
    rfl
  · unfold strftimeGpx
    rw [Int.mul_fdiv_cancel_left _ (by decide : (1000000 : Int) ≠ 0)]

theorem c8_witness :
    (make_gpx constFmt [c8wPoint]).length = 1 + 2 ∧
    (make_gpx constFmt [c8wPoint]).get? 1 =
      some ("   <trkpt lat=\x22" ++ constFmt c8wPoint.longitude ++ "\x22 lon=\x22"
        ++ constFmt c8wPoint.latitude ++ "\x22><time>" ++ strftimeGpx c8wPoint.timestamp
        ++ "</time></trkpt>") ∧
    strftimeGpx 1500000 = strftimeGpx (1000000 * (1500000 : Int).fdiv 1000000) :=
  c8_theorem constFmt [c8wPoint] 0 c8wPoint 1500000 rfl

/-- C9: a GPSF record value updates `gps_fix` from a single big-endian
unsigned integer of `val_size` bytes — `struct.unpack('>I', ...)` demands a
4-byte buffer, so 4 is the only well-formed `val_size` — and a GPSP record
value updates `gps_accuracy` from a single big-endian unsigned 16-bit
integer (`val_size` 2); in both cases the step returns normally and parsing
continues. -/
theorem c9_theorem (s sp : List Nat) (st stp : PState) (d dp : Nat)
    (hf : 4 ≤ s.length) (hp : 2 ≤ sp.length) :
    processOneValue lblGPSF 4 d s st =
      .ok (s.drop 4, updateOkay { st with gps_fix := beNat (s.take 4) }) ∧
    processOneValue lblGPSP 2 dp sp stp =
      .ok (sp.drop 2, updateOkay { stp with gps_accuracy := beNat (sp.take 2) }) := by
  constructor
  · unfold processOneValue
    rw [if_neg (by decide), if_neg (by decide), if_pos rfl,
      if_neg (by rw [List.length_take]; omega)]
  · unfold processOneValue
    rw [if_neg (by decide), if_neg (by decide), if_neg (by decide), if_pos rfl,
      if_neg (by rw [List.length_take]; omega)]

theorem c9_witness :
    processOneValue lblGPSF 4 4 [0, 0, 0, 3] initState =
      .ok (([0, 0, 0, 3] : List Nat).drop 4,
        updateOkay { initState with gps_fix := beNat (([0, 0, 0, 3] : List Nat).take 4) }) ∧
    processOneValue lblGPSP 2 2 [1, 244] initState =
      .ok (([1, 244] : List Nat).drop 2,
        updateOkay { initState with gps_accuracy := beNat (([1, 244] : List Nat).take 2) }) :=
  c9_theorem [0, 0, 0, 3] [1, 244] initState initState 4 2 (by decide) (by decide)

attribute [local semireducible] Rat.mul Rat.inv in
/-- C10: after the loop ends, only `data` feeds the interpolator — the
session still in `current_data` is dropped, whatever it holds (first
conjunct, which exposes exactly how `gopro_binary_to_csv` finalizes).  On
`c10Stream` — whose final GPSU record opens a session that then receives one
passing GPS5 sample before the stream ends — the final state holds one
finalized session with 1 sample plus a non-empty in-progress session with 1
sample, and the output has exactly 1 point: the trailing sample never
reaches the interpolated output. -/
theorem c10_theorem :
    (∀ s : List Nat, gopro_binary_to_csv s =
      match parseLoop (s.length + 1) s initState with
      | .error e => .error e
      | .ok st => interpolate st.data) ∧
    (parseLoop (c10Stream.length + 1) c10Stream initState).map
      (fun st => (st.data.map fun r => r.gps_data.length,
                  st.current_data.map fun c => c.gps_data.length)) =
      Except.ok ([1], some 1) ∧
    (gopro_binary_to_csv c10Stream).map List.length = Except.ok 1 :=
  ⟨fun s => rfl, by rfl, by rfl⟩
